import Mathlib

/-!
Verification of the bearer-token validation and role-based authorization
gateway of the keycloak-authservice repository.

The repository's `app/utils/jwt_utils.py` (the `JWTValidator` with
`decode_token` / `extract_claims`, and the `jwt_required` guard) is not
present in the source tree; only its tests (`tests/test_jwt_utils.py`) and
its callers (`app/routes/auth.py`, `app/routes/protected.py`) are.  Those
components are therefore modelled from the specification, as marked on each
definition.  Everything else (`app/config.py`, `app/keycloak_client.py`,
`app/keycloak_admin_client.py`, `app/routes/auth.py`, `app/routes/sso.py`)
is embedded directly from the source.
-/

/-- From `app/config.py`: `TOKEN_ALGORITHM = 'RS256'`. -/
def Config.TOKEN_ALGORITHM : String := "RS256"

/-- Modelled from the spec: the token header of the compact three-part
signed structure, carrying the declared algorithm and the key id
(`jwt_utils.py` is absent from the source tree). -/
structure TokenHeader where
  alg : String
  kid : String
deriving DecidableEq, Repr

/-- Modelled from the spec: the raw decoded claim set (`TokenPayload`):
subject id, username, email, issued-at, expiry, the realm-level role list
(`realm_access.roles`, absent when `none`), and per-client role lists keyed
by client id (`resource_access`). -/
structure Payload where
  sub : Option String
  preferred_username : Option String
  email : Option String
  iat : Option Nat
  exp : Option Nat
  realm_roles : Option (List String)
  resource_access : List (String × List String)
deriving DecidableEq, Repr

/-- Modelled from the spec: a signed token as parsed structure — header,
payload and an opaque signature blob. -/
structure Token where
  header : TokenHeader
  payload : Payload
  sig : String
deriving DecidableEq, Repr

/-- From the spec's data model: a JWKS entry of the signing-key cache,
keyed by key identifier. -/
structure SigningKey where
  keyId : String
  publicKey : String
deriving DecidableEq, Repr

/-- The normalized identity record (`IdentityClaims`) that
`extract_claims` produces; `roles` is a duplicate-free list standing for
the set of role strings. -/
structure IdentityClaims where
  user_id : String
  username : String
  email : String
  roles : List String
deriving DecidableEq, Repr

/-- Modelled from the spec: `JWTValidator.extract_claims` of the absent
`jwt_utils.py` — read subject, username, email; collect the realm-level
role list and flatten every client's role list from the per-client role
map into one de-duplicated set. -/
def extract_claims (p : Payload) : IdentityClaims :=
  { user_id := p.sub.getD ""
    username := p.preferred_username.getD ""
    email := p.email.getD ""
    roles := ((p.realm_roles.getD []) ++ (p.resource_access.map Prod.snd).flatten).dedup }

/-- Modelled from the spec: `JWTValidator.decode_token` of the absent
`jwt_utils.py`.  Verification phase: the declared algorithm must be exactly
the configured `Config.TOKEN_ALGORITHM`; the header's key id must resolve
against the cached key list; the signature must verify (the cryptographic
check is abstracted by the oracle `sigOk`); the expiry claim must be
present and strictly in the future; the subject must be present.  On any
failure the result is `none`; otherwise the verified payload is returned
(as in the tests, where `decode_token` yields the payload and
`extract_claims` is applied separately). -/
def decode_token (sigOk : SigningKey → Token → Bool) (keys : List SigningKey)
    (now : Nat) (t : Token) : Option Payload :=
  if t.header.alg ≠ Config.TOKEN_ALGORITHM then none
  else
    match keys.find? (fun k => k.keyId = t.header.kid) with
    | none => none
    | some k =>
      if sigOk k t then
        match t.payload.exp with
        | none => none
        | some e =>
          if now < e then
            match t.payload.sub with
            | none => none
            | some _ => some t.payload
          else none
      else none

/-- The payload of `tests/test_jwt_utils.py`'s `mock_payload` fixture:
`realm_access.roles = ["user"]`, `resource_access.client.roles = ["admin"]`. -/
def mockPayload : Payload :=
  { sub := some "user-123"
    preferred_username := some "testuser"
    email := some "test@example.com"
    iat := some 1234567890
    exp := some 1234567990
    realm_roles := some ["user"]
    resource_access := [("client", ["admin"])] }

/-- Claim C3: for every payload, `extract_claims` yields a duplicate-free
role list whose members are exactly the union of the realm-level role list
and every per-client role list; on the test payload with
`realm_access.roles = ["user"]` and `resource_access.client.roles =
["admin"]` the result is exactly the set containing "user" and "admin". -/
theorem C3_roles_union_dedup :
    (∀ p : Payload, (extract_claims p).roles.Nodup) ∧
    (∀ (p : Payload) (r : String),
      r ∈ (extract_claims p).roles ↔
        (r ∈ p.realm_roles.getD [] ∨ ∃ c ∈ p.resource_access, r ∈ c.2)) ∧
    (extract_claims mockPayload).roles = ["user", "admin"] := by
  refine ⟨fun p => List.nodup_dedup _, fun p r => ?_, by decide⟩
  simp only [extract_claims]
  constructor
  · intro h
    rcases List.mem_append.1 (List.mem_dedup.1 h) with h | h
    · exact Or.inl h
    · rcases List.mem_flatten.1 h with ⟨l, hl, hr⟩
      rcases List.mem_map.1 hl with ⟨c, hc, rfl⟩
      exact Or.inr ⟨c, hc, hr⟩
  · rintro (h | ⟨c, hc, hr⟩)
    · exact List.mem_dedup.2 (List.mem_append.2 (Or.inl h))
    · exact List.mem_dedup.2 (List.mem_append.2
        (Or.inr (List.mem_flatten.2 ⟨c.2, List.mem_map.2 ⟨c, hc, rfl⟩, hr⟩)))

/-- Claim C7: `roles` is never null — in particular, a payload with no
role claims at all (no realm-level list, empty per-client map) yields the
empty role set from `extract_claims`, not an error. -/
theorem C7_no_role_claims_empty_roles (p : Payload)
    (h1 : p.realm_roles = none) (h2 : p.resource_access = []) :
    (extract_claims p).roles = [] := by
  simp [extract_claims, h1, h2]

/-- Witness for C7 at a concrete payload carrying no role claims. -/
theorem C7_no_role_claims_empty_roles_witness :
    (extract_claims
      { sub := some "user-123", preferred_username := some "u",
        email := none, iat := none, exp := some 99,
        realm_roles := none, resource_access := [] }).roles = [] :=
  C7_no_role_claims_empty_roles _ rfl rfl

/-- Claim C1: a token whose header declares any algorithm other than the
configured `RS256` (including `none`) is rejected by `decode_token`,
regardless of the signature oracle, the cached key set (even one holding a
key whose id matches the token's key id) and the clock. -/
theorem C1_wrong_algorithm_rejected (sigOk : SigningKey → Token → Bool)
    (keys : List SigningKey) (now : Nat) (t : Token)
    (h : t.header.alg ≠ Config.TOKEN_ALGORITHM) :
    decode_token sigOk keys now t = none := by
  simp [decode_token, h]

/-- Witness for C1: a token declaring algorithm `none`, while the cache
holds a key whose id matches the token's key id and the signature oracle
accepts everything, still decodes to nothing. -/
theorem C1_wrong_algorithm_rejected_witness :
    decode_token (fun _ _ => true)
      [{ keyId := "kid-1", publicKey := "pk" }] 0
      { header := { alg := "none", kid := "kid-1" },
        payload := mockPayload, sig := "s" } = none :=
  C1_wrong_algorithm_rejected _ _ _ _ (by decide)

/-- Claim C2: a token whose `exp` claim is absent, or strictly in the
past, is rejected by `decode_token` for every signature oracle (hence
regardless of signature validity), key set and key match. -/
theorem C2_expired_rejected (sigOk : SigningKey → Token → Bool)
    (keys : List SigningKey) (now : Nat) (t : Token)
    (h : ∀ e, t.payload.exp = some e → e < now) :
    decode_token sigOk keys now t = none := by
  unfold decode_token
  split
  · rfl
  · cases hfind : List.find? (fun k => k.keyId = t.header.kid) keys with
    | none => rfl
    | some k =>
      simp only
      split
      · cases hexp : t.payload.exp with
        | none => rfl
        | some e =>
          have : ¬ now < e := by
            have := h e hexp
            omega
          simp [hexp, this]
      · rfl

/-- Witness for C2: a token with a valid-looking structure, an accepting
signature oracle and a matching cached key, whose `exp` (50) is strictly
before the clock (100), decodes to nothing. -/
theorem C2_expired_rejected_witness :
    decode_token (fun _ _ => true)
      [{ keyId := "kid-1", publicKey := "pk" }] 100
      { header := { alg := "RS256", kid := "kid-1" },
        payload := { mockPayload with exp := some 50 }, sig := "s" } = none :=
  C2_expired_rejected _ _ _ _ (by intro e he; simp at he; omega)

/-- An inbound HTTP request as the guard sees it: just its optional
authorization header. -/
structure Request where
  authHeader : Option String
deriving DecidableEq, Repr

/-- Modelled from the spec: extraction of the bearer credential of the
absent `jwt_utils.py` guard — a header is accepted only in the
`Bearer <token>` form; a missing header, or one of any other shape,
yields nothing. -/
def parseBearer : Option String → Option String
  | none => none
  | some h => if h.take 7 = "Bearer " then some (h.drop 7) else none

/-- Outcome of the guard: a 401 rejection, a 403 rejection, or execution
of the wrapped handler with the validated claims attached to the request
context. -/
inductive GuardOutcome where
  | unauthenticated
  | forbidden
  | allowed (claims : IdentityClaims)
deriving DecidableEq, Repr

/-- Modelled from the spec: the `jwt_required(roles=...)` decorator of the
absent `jwt_utils.py`.  The validator is abstracted as a function from the
token string to an optional claims record (decode followed by extraction);
the second component counts how many times it is invoked.  Missing or
malformed header: 401 without calling the validator; validator failure:
401; configured non-empty role list with empty intersection: 403;
otherwise the wrapped handler runs with the claims. -/
def jwt_required (decode : String → Option IdentityClaims)
    (roles : List String) (req : Request) : GuardOutcome × Nat :=
  match parseBearer req.authHeader with
  | none => (GuardOutcome.unauthenticated, 0)
  | some tok =>
    match decode tok with
    | none => (GuardOutcome.unauthenticated, 1)
    | some claims =>
      if roles.isEmpty then (GuardOutcome.allowed claims, 1)
      else if roles.any (fun r => claims.roles.contains r) then
        (GuardOutcome.allowed claims, 1)
      else (GuardOutcome.forbidden, 1)

/-- The claims record whose only role is "user". -/
def userOnlyClaims : IdentityClaims :=
  { user_id := "user-123", username := "testuser",
    email := "test@example.com", roles := ["user"] }

/-- The claims record holding the roles "user" and "admin". -/
def userAdminClaims : IdentityClaims :=
  { user_id := "user-123", username := "testuser",
    email := "test@example.com", roles := ["user", "admin"] }

/-- A request carrying the bearer token `t`. -/
def bearerReq : Request := { authHeader := some "Bearer t" }

/-- Claim C4: when the guard is configured with a non-empty required-role
list and the validator accepts the request's bearer token, the request is
rejected with 403 exactly when the claims' roles do not intersect the
required list, and allowed (running the wrapped handler with the claims)
exactly when at least one required role is held — not necessarily all; in
particular, with required roles `["admin"]`, claims holding only "user"
are forbidden while claims holding "user" and "admin" are allowed. -/
theorem C4_role_intersection_gate (decode : String → Option IdentityClaims)
    (roles : List String) (req : Request) (tok : String)
    (claims : IdentityClaims)
    (hb : parseBearer req.authHeader = some tok)
    (hd : decode tok = some claims)
    (hne : roles ≠ []) :
    ((¬ ∃ r ∈ roles, r ∈ claims.roles) →
        jwt_required decode roles req = (GuardOutcome.forbidden, 1)) ∧
    ((∃ r ∈ roles, r ∈ claims.roles) →
        jwt_required decode roles req = (GuardOutcome.allowed claims, 1)) ∧
    (jwt_required (fun _ => some userOnlyClaims) ["admin"] bearerReq
        = (GuardOutcome.forbidden, 1)) ∧
    (jwt_required (fun _ => some userAdminClaims) ["admin"] bearerReq
        = (GuardOutcome.allowed userAdminClaims, 1)) := by
  have hroles : roles.isEmpty = false := by
    cases roles with
    | nil => exact absurd rfl hne
    | cons a l => rfl
  refine ⟨?_, ?_, by decide, by decide⟩
  · intro hno
    simp [jwt_required, hb, hd, hroles]
    exact fun r hr hmem => hno ⟨r, hr, hmem⟩
  · rintro ⟨r, hr, hmem⟩
    simp [jwt_required, hb, hd, hroles]
    exact ⟨r, hr, hmem⟩

/-- Witness for C4: with required roles `["admin"]` and a validator
accepting the token of `bearerReq` as `userOnlyClaims`, the intersection
is empty and the guard answers 403 (plus the two concrete instances of
the theorem). -/
theorem C4_role_intersection_gate_witness :
    jwt_required (fun _ => some userOnlyClaims) ["admin"] bearerReq
      = (GuardOutcome.forbidden, 1) :=
  (C4_role_intersection_gate (fun _ => some userOnlyClaims) ["admin"]
      bearerReq "t" userOnlyClaims (by decide) rfl (by decide)).1
    (by decide)

/-- Claim C6: a request whose authorization header is missing or not of
the `Bearer <token>` form is rejected by the guard with 401 while the
validator is invoked zero times, whatever the validator and the configured
role list. -/
theorem C6_missing_header_unauthenticated
    (decode : String → Option IdentityClaims) (roles : List String)
    (req : Request) (h : parseBearer req.authHeader = none) :
    jwt_required decode roles req = (GuardOutcome.unauthenticated, 0) := by
  simp [jwt_required, h]

/-- Witness for C6: a request with a `Basic` (non-Bearer) authorization
header is rejected with 401 and zero validator invocations. -/
theorem C6_missing_header_unauthenticated_witness :
    jwt_required (fun _ => some userAdminClaims) []
      { authHeader := some "Basic dXNlcg==" }
      = (GuardOutcome.unauthenticated, 0) :=
  C6_missing_header_unauthenticated _ _ _ (by decide)

/-- The token bundle returned by Keycloak's token endpoint, as consumed by
`app/routes/auth.py`. -/
structure Tokens where
  access_token : String
  refresh_token : String
  expires_in : Nat
  refresh_expires_in : Nat
  token_type : String
deriving DecidableEq, Repr

/-- Outcome of a Flask handler: either a JSON response with an HTTP status
and a message/error string, or an unhandled Python exception that crashes
the request (named by its exception class). -/
inductive HttpOutcome where
  | response (status : Nat) (message : String)
  | crash (exn : String)
deriving DecidableEq, Repr

/-- From `app/keycloak_client.py`, `KeycloakClient.authenticate`: the call
to Keycloak is abstracted as an `Except` outcome carrying the raised
exception's text on failure; the `except` branch discards the exception
and answers the fixed string "Authentication failed". -/
def KeycloakClient.authenticate (outcome : Except String Tokens) :
    Bool × Option String × Option Tokens :=
  match outcome with
  | Except.ok t => (true, none, some t)
  | Except.error _ => (false, some "Authentication failed", none)

/-- From `app/keycloak_client.py`, `KeycloakClient.refresh_token`: the
`except` branch discards the exception and answers the fixed string
"Token refresh failed". -/
def KeycloakClient.refresh_token (outcome : Except String Tokens) :
    Bool × Option String × Option Tokens :=
  match outcome with
  | Except.ok t => (true, none, some t)
  | Except.error _ => (false, some "Token refresh failed", none)

/-- From `app/keycloak_client.py`, `KeycloakClient.logout`: the `except`
branch discards the exception and answers the fixed string
"Logout failed". -/
def KeycloakClient.logout (outcome : Except String Unit) :
    Bool × Option String :=
  match outcome with
  | Except.ok _ => (true, none)
  | Except.error _ => (false, some "Logout failed")

/-- From `app/routes/auth.py`, the `login` handler.  `authOutcome` is the
Keycloak authentication call, `decodeResult` is what
`jwt_validator.decode_token(access_token)` returned.  On authentication
failure it answers 401 with the client's fixed error string.  On success
the source runs `claims = jwt_validator.extract_claims(payload)` and then
subscripts `claims` with no `None` check, so a failed decode
(`payload = None`) raises an unhandled `AttributeError` inside
`extract_claims` (`payload.get` on `None`) and crashes the request. -/
def login (authOutcome : Except String Tokens)
    (decodeResult : Option Payload) : HttpOutcome :=
  match KeycloakClient.authenticate authOutcome with
  | (false, some err, _) => HttpOutcome.response 401 err
  | (_, _, _) =>
    match decodeResult with
    | none => HttpOutcome.crash "AttributeError"
    | some _ => HttpOutcome.response 200 "Login successful"

/-- From `app/routes/auth.py`, the `validate` handler: it checks
`if not payload` and answers 401 with the fixed string
"Invalid or expired token"; otherwise 200 with the extracted claims. -/
def validate (decodeResult : Option Payload) : HttpOutcome :=
  match decodeResult with
  | none => HttpOutcome.response 401 "Invalid or expired token"
  | some _ => HttpOutcome.response 200 "valid"

/-- A successful Keycloak token bundle used as a concrete input. -/
def okTokens : Tokens :=
  { access_token := "at", refresh_token := "rt",
    expires_in := 900, refresh_expires_in := 1800,
    token_type := "Bearer" }

/-- Claim C5 (failing input): when Keycloak authentication succeeds but
`decode_token` fails (`None`), the `login` handler of
`app/routes/auth.py` does not reject the request — it crashes with an
unhandled `AttributeError`, because the decode result is passed to
`extract_claims` and then subscripted without a `None` check; the
`validate` handler on the same failed decode rejects with 401 as the
claim demands.  This contradicts the claim (and the spec's "never crash
the request"). -/
theorem C5_login_crashes_on_failed_decode :
    login (Except.ok okTokens) none = HttpOutcome.crash "AttributeError" ∧
    validate none = HttpOutcome.response 401 "Invalid or expired token" := by
  constructor <;> rfl

/-- From `app/routes/sso.py`, the `oauth_callback` handler: the
authorization-code exchange with Keycloak is abstracted as an `Except`
outcome carrying the raised exception's text on failure; on success it
answers 200 with the token bundle, and in the `except Exception as e`
branch it answers 400 with `jsonify({'error': str(e)})` — the raw
exception text. -/
def oauth_callback (exchange : Except String Tokens) : Nat × String :=
  match exchange with
  | Except.ok t => (200, t.access_token)
  | Except.error e => (400, e)

/-- Claim C8 (counterexample): the error body returned by the
token-exchange failure path of `oauth_callback` is not a fixed string
independent of the internal failure reason — it equals the exception
text, so two different internal reasons produce two different client-visible
messages. -/
theorem C8_oauth_error_leaks_internal_reason :
    (oauth_callback (Except.error "Connection refused")).2
        = "Connection refused" ∧
    (oauth_callback (Except.error "Connection refused")).2
        ≠ (oauth_callback (Except.error "invalid_grant")).2 := by
  constructor
  · rfl
  · decide

/-- Claim C8 as amended: the authentication, token-refresh, logout and
token-validation failure paths each return a fixed generic error string
that does not depend on (and does not contain) the internal failure
reason; the OAuth token-exchange failure path of `oauth_callback`,
however, returns the raised exception's text verbatim in the response
body. -/
theorem C8_generic_errors_except_oauth :
    (∀ e : String, KeycloakClient.authenticate (Except.error e)
        = (false, some "Authentication failed", none)) ∧
    (∀ e : String, KeycloakClient.refresh_token (Except.error e)
        = (false, some "Token refresh failed", none)) ∧
    (∀ e : String, KeycloakClient.logout (Except.error e)
        = (false, some "Logout failed")) ∧
    (validate none = HttpOutcome.response 401 "Invalid or expired token") ∧
    (∀ e : String, oauth_callback (Except.error e) = (400, e)) :=
  ⟨fun _ => rfl, fun _ => rfl, fun _ => rfl, rfl, fun _ => rfl⟩

/-- The result dictionary of `KeycloakAdminClient.register_user` as seen
by its caller (`app/routes/auth.py`'s `register`). -/
structure RegisterResult where
  success : Bool
  user_id : Option String
  username : Option String
  email : Option String
  error : Option String
  field : Option String
deriving DecidableEq, Repr

/-- From `app/keycloak_admin_client.py`,
`KeycloakAdminClient.assign_default_role`: the realm roles are fetched
(`available_roles`, abstracted as the list of role names); if no role
named "user" exists the call fails with the fixed message, otherwise the
assignment call itself (abstracted as an `Except` outcome) decides. -/
def assign_default_role (available_roles : List String)
    (assign : Except String Unit) : Except String Unit :=
  if available_roles.contains "user" then assign
  else Except.error "Default user role not found in Keycloak"

/-- From `app/keycloak_admin_client.py`,
`KeycloakAdminClient.register_user`: existence check (`existing` carries
the offending field and message when a duplicate exists), then user
creation (abstracted as an `Except` outcome yielding the new user id),
then default-role assignment.  A role-assignment failure only prints a
warning (returned here as the second component) — the result dictionary
is the same success dictionary as when assignment succeeds. -/
def register_user (existing : Option (String × String))
    (create : Except String String)
    (available_roles : List String) (assign : Except String Unit)
    (username email : String) : RegisterResult × Option String :=
  match existing with
  | some fm =>
    ({ success := false, user_id := none, username := none, email := none,
       error := some fm.2, field := some fm.1 }, none)
  | none =>
    match create with
    | Except.error e =>
      ({ success := false, user_id := none, username := none, email := none,
         error := some e, field := none }, none)
    | Except.ok uid =>
      match assign_default_role available_roles assign with
      | Except.error e =>
        ({ success := true, user_id := some uid, username := some username,
           email := some email, error := none, field := none },
         some ("Warning: User " ++ username ++
           " created but role assignment failed: " ++ e))
      | Except.ok _ =>
        ({ success := true, user_id := some uid, username := some username,
           email := some email, error := none, field := none }, none)

/-- Claim C10: when the user is created but the default-role assignment
fails (for any reason, including the assignment call raising or the
"user" role being absent from the realm), `register_user` still returns
the success dictionary with the new user id, and that dictionary is
identical to the one returned when role assignment succeeds — the caller
cannot distinguish the partially completed registration; only the locally
printed warning differs. -/
theorem C10_register_success_despite_role_failure
    (uid username email e : String) (available_roles : List String) :
    ((register_user none (Except.ok uid) available_roles (Except.error e)
        username email).1.success = true) ∧
    ((register_user none (Except.ok uid) available_roles (Except.error e)
        username email).1.user_id = some uid) ∧
    ((register_user none (Except.ok uid) available_roles (Except.error e)
        username email).1
      = (register_user none (Except.ok uid) available_roles (Except.ok ())
        username email).1) := by
  unfold register_user assign_default_role
  by_cases h : "user" ∈ available_roles <;> simp [h]

/-- Modelled from the spec: the state of the Signing-Key Cache — the set
of cached key ids (the immutable snapshot), whether a JWKS fetch is in
flight, and how many remote fetches have been performed. -/
structure KeyCacheState where
  keys : List String
  inFlight : Bool
  fetchCount : Nat
deriving DecidableEq, Repr

/-- Modelled from the spec: `getKey` of the Signing-Key Cache in the
sequential (single-caller) view — return the cached key when present;
otherwise perform one remote JWKS fetch, replace the key set wholesale
with the provider's current set (`provided`) and answer from it
(`none` signalling `KeyNotFound`). -/
def getKey (provided : List String) (kid : String) (s : KeyCacheState) :
    Option String × KeyCacheState :=
  if kid ∈ s.keys then (some kid, s)
  else
    ((if kid ∈ provided then some kid else none),
     { keys := provided, inFlight := false, fetchCount := s.fetchCount + 1 })

/-- Modelled from the spec: one atomic event of the cache under concurrent
requests for the key id `kid` — a caller hits the cache, starts the single
fetch (only when none is in flight), joins the in-flight fetch, or the
fetch completes and atomically swaps in the provider's key set. -/
inductive CacheStep (provided : List String) (kid : String) :
    KeyCacheState → KeyCacheState → Prop where
  | hit (s : KeyCacheState) : kid ∈ s.keys → CacheStep provided kid s s
  | startFetch (s : KeyCacheState) : kid ∉ s.keys → s.inFlight = false →
      CacheStep provided kid s
        { keys := s.keys, inFlight := true, fetchCount := s.fetchCount + 1 }
  | joinFetch (s : KeyCacheState) : kid ∉ s.keys → s.inFlight = true →
      CacheStep provided kid s s
  | completeFetch (s : KeyCacheState) : s.inFlight = true →
      CacheStep provided kid s
        { keys := provided, inFlight := false, fetchCount := s.fetchCount }

/-- Invariant for the no-thundering-herd argument: either no fetch has
happened yet (count still `n0`, none in flight), or at most one has and
the key is either being fetched or already cached. -/
def singleFetchInv (n0 : Nat) (kid : String) (s : KeyCacheState) : Prop :=
  (s.fetchCount = n0 ∧ s.inFlight = false) ∨
  (s.fetchCount ≤ n0 + 1 ∧ (s.inFlight = true ∨ kid ∈ s.keys))

lemma singleFetchInv_step {provided : List String} {kid : String}
    {n0 : Nat} {s s' : KeyCacheState} (hp : kid ∈ provided)
    (hinv : singleFetchInv n0 kid s)
    (hstep : CacheStep provided kid s s') : singleFetchInv n0 kid s' := by
  cases hstep with
  | hit hmem => exact hinv
  | startFetch hmem hfl =>
    rcases hinv with ⟨hc, _⟩ | ⟨_, hin | hmem2⟩
    · exact Or.inr ⟨by simp [hc], Or.inl rfl⟩
    · rw [hfl] at hin; exact absurd hin (by simp)
    · exact absurd hmem2 hmem
  | joinFetch hmem hfl => exact hinv
  | completeFetch hfl =>
    rcases hinv with ⟨_, hno⟩ | ⟨hc, _⟩
    · rw [hfl] at hno; exact absurd hno (by simp)
    · exact Or.inr ⟨hc, Or.inr hp⟩

lemma singleFetchInv_trace {provided : List String} {kid : String}
    {n0 : Nat} {s0 s : KeyCacheState} (hp : kid ∈ provided)
    (h0 : singleFetchInv n0 kid s0)
    (htr : Relation.ReflTransGen (CacheStep provided kid) s0 s) :
    singleFetchInv n0 kid s := by
  induction htr with
  | refl => exact h0
  | tail _ hstep ih => exact singleFetchInv_step hp ih hstep

/-- Claim C9: (sequential part) a validation whose key id is not cached
performs exactly one key-set refresh, and — once that refresh has stored
the key — a later lookup of the same key id succeeds with zero additional
fetches; (concurrent part) from any state with no fetch in flight, every
interleaving of cache events for the same key id (hits, one started fetch,
joiners, completion) increases the fetch count by at most one in total,
provided the provider's key set holds the key. -/
theorem C9_single_refresh_per_unknown_key :
    (∀ (provided : List String) (kid : String) (s : KeyCacheState),
      kid ∉ s.keys →
        ((getKey provided kid s).2.fetchCount = s.fetchCount + 1) ∧
        (kid ∈ provided →
          (getKey provided kid ((getKey provided kid s).2)).1 = some kid ∧
          (getKey provided kid ((getKey provided kid s).2)).2.fetchCount
            = s.fetchCount + 1)) ∧
    (∀ (provided : List String) (kid : String) (s0 s : KeyCacheState),
      kid ∈ provided → s0.inFlight = false →
      Relation.ReflTransGen (CacheStep provided kid) s0 s →
      s.fetchCount ≤ s0.fetchCount + 1) := by
  constructor
  · intro provided kid s hmem
    constructor
    · simp [getKey, hmem]
    · intro hp
      simp [getKey, hmem, hp]
  · intro provided kid s0 s hp h0 htr
    have hinv := singleFetchInv_trace hp (Or.inl ⟨rfl, h0⟩) htr
    rcases hinv with ⟨hc, _⟩ | ⟨hc, _⟩
    · omega
    · exact hc

/-- Witness for C9: with provider key set `["A"]`, key id `"A"` and the
empty cache, the first lookup fetches once (count 1), the second lookup
finds the key with no further fetch (count still 1), and the empty trace
from the initial state respects the at-most-one-fetch bound. -/
theorem C9_single_refresh_per_unknown_key_witness :
    ((getKey ["A"] "A" { keys := [], inFlight := false, fetchCount := 0
      }).2.fetchCount = 1) ∧
    ((getKey ["A"] "A" ((getKey ["A"] "A"
        { keys := [], inFlight := false, fetchCount := 0 }).2)).1
      = some "A") ∧
    ((getKey ["A"] "A" ((getKey ["A"] "A"
        { keys := [], inFlight := false, fetchCount := 0 }).2)).2.fetchCount
      = 1) ∧
    (KeyCacheState.fetchCount
        { keys := [], inFlight := false, fetchCount := 0 } ≤ 0 + 1) := by
  have h1 := (C9_single_refresh_per_unknown_key.1 ["A"] "A"
    { keys := [], inFlight := false, fetchCount := 0 } (by decide))
  have h2 := C9_single_refresh_per_unknown_key.2 ["A"] "A"
    { keys := [], inFlight := false, fetchCount := 0 }
    { keys := [], inFlight := false, fetchCount := 0 }
    (by decide) rfl Relation.ReflTransGen.refl
  exact ⟨h1.1, (h1.2 (by decide)).1, (h1.2 (by decide)).2, h2⟩
